import Mathlib

/-!
Verification of the ai-web-agent codebase analyzer and prompt generator.

This file gives a shallow embedding of the analysis/rendering core of the
repository: `CodebaseAnalyzer` (analyzer.js), `PromptGenerator`
(promptGenerator.js) and the `AIWebAgent` entry point (index.js), together
with theorems settling the frozen claims about that core.

String manipulation is modelled on `List Char` with structural (fuelled)
recursion only, so that every definition evaluates inside the kernel.
JavaScript `String.prototype.replace` with a `g`-flagged regular expression
whose pattern is a literal (all metacharacters escaped) is modelled as global
literal replacement: scan left to right, replace non-overlapping occurrences,
never rescan replacement text.  The dynamically built patterns in
`populateTemplate` (`new RegExp(placeholder, 'g')`) contain unescaped dots,
which match those same literal characters on every template considered here,
so they are likewise modelled as literal patterns.
-/

namespace AiWebAgent

/-- Prefix test on character lists: does `pat` occur at the head of `s`? -/
def startsL : List Char → List Char → Bool
  | [], _ => true
  | _ :: _, [] => false
  | p :: ps, c :: cs => p == c && startsL ps cs

/-- Substring occurrence test on character lists (JavaScript `String.includes`). -/
def occursL (pat : List Char) : List Char → Bool
  | [] => startsL pat []
  | c :: cs => startsL pat (c :: cs) || occursL pat cs

/-- One pass of global literal replacement, structurally recursive on the
scanned list.  `skip` counts characters of an already-matched occurrence
still to be consumed: on a match at the current position the replacement is
emitted and the remaining `pat.length - 1` matched characters are skipped,
so occurrences never overlap and replacement text is never rescanned. -/
def replL (pat rep : List Char) : Nat → List Char → List Char
  | 0, [] => []
  | 0, c :: cs =>
    if startsL pat (c :: cs) then rep ++ replL pat rep (pat.length - 1) cs
    else c :: replL pat rep 0 cs
  | Nat.succ _, [] => []
  | Nat.succ k, _ :: cs => replL pat rep k cs

/-- JavaScript `s.replace(/pat/g, rep)` for a literal pattern `pat` and a
replacement value without dollar signs: JavaScript gives dollar sequences
in replacement strings special meaning (`$$`, `$&`, ...), which plain
literal insertion does not model, so every replacement value the theorems
below consider is either a concrete dollar-free string or explicitly
hypothesised dollar-free. -/
def replaceStr (s pat rep : String) : String :=
  ⟨replL pat.data rep.data 0 s.data⟩

/-- JavaScript `s.includes(pat)`. -/
def occursS (s pat : String) : Bool :=
  occursL pat.data s.data

/-- JavaScript `s.endsWith(suffix)`. -/
def endsS (s suffix : String) : Bool :=
  startsL suffix.data.reverse s.data.reverse

/-- Split a character list on a separator character (used for `/`). -/
def splitChar (sep : Char) : List Char → List (List Char)
  | [] => [[]]
  | c :: cs =>
    match splitChar sep cs with
    | [] => [[]]
    | h :: t => if c == sep then [] :: h :: t else (c :: h) :: t

/-- Node's `path.basename` for slash-separated paths without a trailing
slash: the final path component. -/
def basenameOf (p : String) : String :=
  ((splitChar '/' p.data).getLastD []).asString

/-- Index of the last occurrence of a character, if any. -/
def lastIdxOf (c : Char) : List Char → Option Nat
  | [] => none
  | x :: xs =>
    match lastIdxOf c xs with
    | some i => some (i + 1)
    | none => if x == c then some 0 else none

/-- Node's `path.extname`: the extension of the basename, read from its last
dot; a dot in first position (dotfiles such as `.env`) or no dot at all
yields the empty string. -/
def extnameOf (p : String) : String :=
  let b := (basenameOf p).data
  match lastIdxOf '.' b with
  | some i => if i == 0 then "" else (b.drop i).asString
  | none => ""

/-- ASCII lower-casing of one character (JavaScript `toLowerCase` on the
character sets appearing in this codebase). -/
def lowerChar (c : Char) : Char :=
  if 'A' ≤ c && c ≤ 'Z' then Char.ofNat (c.toNat + 32) else c

/-- JavaScript `s.toLowerCase()` for ASCII content. -/
def toLowerStr (s : String) : String :=
  ⟨s.data.map lowerChar⟩

/-- JavaScript `array.join(', ')`. -/
def joinComma : List String → String
  | [] => ""
  | [s] => s
  | s :: rest => s ++ ", " ++ joinComma rest

/-- JavaScript `array.join('/')` (used for `path.dirname`). -/
def joinSlash : List String → String
  | [] => ""
  | [s] => s
  | s :: rest => s ++ "/" ++ joinSlash rest

/-- JavaScript string-as-boolean coercion composed with `||`:
`s || fallback` for strings. -/
def strFallback (s fallback : String) : String :=
  if s = "" then fallback else s

/-- The recognized top-level keys of a `package.json`-style manifest, each
optional, plus the declared package name, which a real manifest carries but
the analyzer never consumes.  Objects are modelled as insertion-ordered
association lists without duplicate keys, matching JavaScript object key
enumeration order. -/
structure PackageJson where
  name : Option String
  dependencies : Option (List (String × String))
  devDependencies : Option (List (String × String))
  scripts : Option (List (String × String))
  type : Option String

/-- A file's content, abstracted by the outcome of `JSON.parse` on it. -/
inductive JsonContent where
  | malformed : JsonContent
  | object : PackageJson → JsonContent

mutual
/-- A node of the modelled filesystem: a regular file or a directory. -/
inductive FSNode where
  | file : JsonContent → FSNode
  | dir : FSEntries → FSNode

/-- Ordered directory entries, as `readdirSync` lists them. -/
inductive FSEntries where
  | nil : FSEntries
  | cons : String → FSNode → FSEntries → FSEntries
end

/-- The analyzer's fixed ignore list (its constructor). -/
def ignoreList : List String :=
  ["node_modules", ".git", "dist", "build", ".next", ".nuxt"]

mutual
/-- `CodebaseAnalyzer.findAllFiles`.  `none` models a nonexistent path and a
`file` node a non-directory path: in both cases `readdirSync` throws, the
error is caught and logged, and the empty list is returned.
`path.join(folderPath, item)` is modelled as `folderPath ++ "/" ++ item`,
its value on the slash-free segment names used here. -/
def findAllFiles : Option FSNode → String → List String
  | none, _ => []
  | some (.file _), _ => []
  | some (.dir entries), folderPath => findAllFilesEntries folderPath entries

/-- The loop of `findAllFiles` over one directory listing. -/
def findAllFilesEntries (folderPath : String) : FSEntries → List String
  | .nil => []
  | .cons item node rest =>
    (if ignoreList.contains item then []
     else
       match node with
       | .dir es => findAllFilesEntries (folderPath ++ "/" ++ item) es
       | .file _ => [folderPath ++ "/" ++ item]) ++
    findAllFilesEntries folderPath rest
end

/-- The category buckets of `categorizeFiles` (the `categories` object, keys
in insertion order).  The source declares an `angular` bucket but no branch
of the classification chain ever pushes into it. -/
structure CategoryBuckets where
  javascript : List String
  typescript : List String
  react : List String
  vue : List String
  angular : List String
  styles : List String
  html : List String
  images : List String
  config : List String
  documentation : List String
  tests : List String
  other : List String

/-- The category names, used to index the buckets in proofs. -/
inductive Category where
  | javascript | typescript | react | vue | angular | styles | html | images
  | config | documentation | tests | other
deriving DecidableEq

/-- All-empty buckets (the initial `categories` object). -/
def emptyBuckets : CategoryBuckets :=
  ⟨[], [], [], [], [], [], [], [], [], [], [], []⟩

/-- The classification chain of `categorizeFiles`: first match wins. -/
def categoryOf (file : String) : Category :=
  let fileName := basenameOf file
  let extension := toLowerStr (extnameOf file)
  if extension == ".js" && !(occursS fileName ".test.") && !(occursS fileName ".spec.") then
    .javascript
  else if extension == ".ts" && !(occursS fileName ".test.") && !(occursS fileName ".spec.") then
    .typescript
  else if extension == ".jsx" || extension == ".tsx" then .react
  else if extension == ".vue" then .vue
  else if extension == ".css" || extension == ".scss" || extension == ".sass" || extension == ".less" then
    .styles
  else if extension == ".html" then .html
  else if [".png", ".jpg", ".jpeg", ".gif", ".svg", ".webp"].contains extension then .images
  else if ["package.json", "package-lock.json", ".env", "tsconfig.json", "webpack.config.js"].contains fileName then
    .config
  else if [".md", ".txt", ".rst"].contains extension then .documentation
  else if occursS fileName ".test." || occursS fileName ".spec." || extension == ".test.js" || extension == ".spec.js" then
    .tests
  else .other

/-- `categories.<bucket>.push(file)` for the selected bucket. -/
def pushBucket (cats : CategoryBuckets) (c : Category) (file : String) : CategoryBuckets :=
  match c with
  | .javascript => { cats with javascript := cats.javascript ++ [file] }
  | .typescript => { cats with typescript := cats.typescript ++ [file] }
  | .react => { cats with react := cats.react ++ [file] }
  | .vue => { cats with vue := cats.vue ++ [file] }
  | .angular => { cats with angular := cats.angular ++ [file] }
  | .styles => { cats with styles := cats.styles ++ [file] }
  | .html => { cats with html := cats.html ++ [file] }
  | .images => { cats with images := cats.images ++ [file] }
  | .config => { cats with config := cats.config ++ [file] }
  | .documentation => { cats with documentation := cats.documentation ++ [file] }
  | .tests => { cats with tests := cats.tests ++ [file] }
  | .other => { cats with other := cats.other ++ [file] }

/-- `CodebaseAnalyzer.categorizeFiles`. -/
def categorizeFiles (files : List String) : CategoryBuckets :=
  files.foldl (fun cats file => pushBucket cats (categoryOf file) file) emptyBuckets

/-- Read a bucket by category name. -/
def bucketGet (cats : CategoryBuckets) : Category → List String
  | .javascript => cats.javascript
  | .typescript => cats.typescript
  | .react => cats.react
  | .vue => cats.vue
  | .angular => cats.angular
  | .styles => cats.styles
  | .html => cats.html
  | .images => cats.images
  | .config => cats.config
  | .documentation => cats.documentation
  | .tests => cats.tests
  | .other => cats.other

/-- The importance roles of `identifyImportantFiles` (the `important`
object, keys in insertion order). -/
structure ImportantFiles where
  entryPoints : List String
  components : List String
  pages : List String
  api : List String
  config : List String
  styles : List String

/-- The component test `^[A-Z].*\.(jsx|tsx)$`: first character an ASCII
capital and the name ends in `.jsx` or `.tsx`.  (Any name passing both
anchors has length at least five, so the two anchors never overlap, and
`.*` imposes no further constraint.) -/
def isComponentName (fileName : String) : Bool :=
  match fileName.data with
  | [] => false
  | c :: _ => ('A' ≤ c && c ≤ 'Z') && (endsS fileName ".jsx" || endsS fileName ".tsx")

/-- The loop body of `identifyImportantFiles`: the six role tests are
independent and non-exclusive.  The page-name regular expression
`^page\.(js|ts|jsx|tsx)$` is the membership test in its four exact
matches. -/
def identifyAdd (important : ImportantFiles) (file : String) : ImportantFiles :=
  let fileName := basenameOf file
  let filePath := toLowerStr file
  let important :=
    if ["index.html", "index.js", "index.ts", "App.js", "App.tsx", "main.js", "main.ts"].contains fileName then
      { important with entryPoints := important.entryPoints ++ [file] }
    else important
  let important :=
    if isComponentName fileName then
      { important with components := important.components ++ [file] }
    else important
  let important :=
    if occursS filePath "/pages/" || occursS filePath "/views/" || ["page.js", "page.ts", "page.jsx", "page.tsx"].contains fileName then
      { important with pages := important.pages ++ [file] }
    else important
  let important :=
    if occursS filePath "/api/" || occursS filePath "/routes/" || occursS fileName "route" then
      { important with api := important.api ++ [file] }
    else important
  let important :=
    if ["package.json", ".env", "tsconfig.json", "next.config.js", "vite.config.js"].contains fileName then
      { important with config := important.config ++ [file] }
    else important
  if fileName == "index.css" || fileName == "App.css" || fileName == "globals.css" then
    { important with styles := important.styles ++ [file] }
  else important

/-- `CodebaseAnalyzer.identifyImportantFiles`. -/
def identifyImportantFiles (files : List String) : ImportantFiles :=
  files.foldl identifyAdd ⟨[], [], [], [], [], []⟩

/-- The analyzer's dependency record: the four fields `analyzeDependencies`
returns. -/
structure DependencyRecord where
  dependencies : List (String × String)
  devDependencies : List (String × String)
  scripts : List (String × String)
  type : String

/-- Outcome of reading and parsing the manifest file. -/
inductive ManifestRead where
  | missing : ManifestRead
  | invalid : ManifestRead
  | parsed : PackageJson → ManifestRead

/-- Look up a directory entry by name. -/
def entriesLookup (name : String) : FSEntries → Option FSNode
  | .nil => none
  | .cons n node rest => if n == name then some node else entriesLookup name rest

/-- The outcome of `fs.readFileSync(path.join(projectPath, 'package.json'),
'utf8')` followed by `JSON.parse`: a missing root, a non-directory root, an
absent manifest entry or a directory named `package.json` make `readFileSync`
throw (`missing`); unparsable content makes `JSON.parse` throw (`invalid`). -/
def manifestReadOf : Option FSNode → ManifestRead
  | some (.dir entries) =>
    match entriesLookup "package.json" entries with
    | some (.file (.object pkg)) => .parsed pkg
    | some (.file .malformed) => .invalid
    | some (.dir _) => .missing
    | none => .missing
  | _ => .missing

/-- The all-empty dependency record built by the `catch` branch of
`analyzeDependencies`. -/
def emptyDependencyRecord : DependencyRecord :=
  { dependencies := [], devDependencies := [], scripts := [], type := "commonjs" }

/-- `CodebaseAnalyzer.analyzeDependencies`, split into the read outcome and
its never-throwing processing: both failure modes land in the same `catch`
and yield the all-empty record, and absent keys of a parsed manifest default
via `|| \x7b\x7d` and `|| 'commonjs'`. -/
def analyzeDependencies (read : ManifestRead) : DependencyRecord :=
  match read with
  | .parsed pkg =>
    { dependencies := pkg.dependencies.getD []
      devDependencies := pkg.devDependencies.getD []
      scripts := pkg.scripts.getD []
      type := pkg.type.getD "commonjs" }
  | .missing => emptyDependencyRecord
  | .invalid => emptyDependencyRecord

/-- JavaScript truthiness of `deps[name]`: the key is present and its value
(a version string) is nonempty. -/
def getTruthy (deps : List (String × String)) (name : String) : Bool :=
  match deps.lookup name with
  | some v => v != ""
  | none => false

/-- JavaScript object spread `\x7b ...a, ...b \x7d` on association lists:
`a`'s keys in order with `b`'s overrides, then `b`'s new keys. -/
def jsMerge (a b : List (String × String)) : List (String × String) :=
  a.map (fun p => match b.lookup p.1 with | some v => (p.1, v) | none => p) ++
    b.filter (fun p => (a.lookup p.1).isNone)

/-- The technology profile returned by `detectTechnology`. -/
structure TechnologyProfile where
  framework : String
  language : String
  styling : String
  bundler : String
  testing : String
  hasTypeScript : Bool
  hasReact : Bool
  hasVue : Bool
  hasAngular : Bool

/-- `CodebaseAnalyzer.detectFramework`. -/
def detectFramework (dependencies : List (String × String)) : String :=
  if getTruthy dependencies "next" then "Next.js"
  else if getTruthy dependencies "nuxt" then "Nuxt.js"
  else if getTruthy dependencies "vue" then "Vue.js"
  else if getTruthy dependencies "@angular/core" then "Angular"
  else if getTruthy dependencies "react" then "React"
  else if getTruthy dependencies "express" then "Express.js"
  else "Vanilla JavaScript"

/-- `CodebaseAnalyzer.detectLanguage`. -/
def detectLanguage (fileTypes : CategoryBuckets) : String :=
  if 0 < fileTypes.typescript.length then "TypeScript"
  else if 0 < fileTypes.javascript.length then "JavaScript"
  else "Unknown"

/-- `CodebaseAnalyzer.detectStyling`. -/
def detectStyling (fileTypes : CategoryBuckets) (dependencies : List (String × String)) : String :=
  if getTruthy dependencies "tailwindcss" then "Tailwind CSS"
  else if getTruthy dependencies "styled-components" then "Styled Components"
  else if getTruthy dependencies "@emotion/react" then "Emotion"
  else if 0 < fileTypes.styles.length then "CSS/SCSS"
  else "Unknown"

/-- `CodebaseAnalyzer.detectBundler`. -/
def detectBundler (dependencies : List (String × String)) : String :=
  if getTruthy dependencies "vite" then "Vite"
  else if getTruthy dependencies "webpack" then "Webpack"
  else if getTruthy dependencies "parcel" then "Parcel"
  else "Unknown"

/-- `CodebaseAnalyzer.detectTesting`. -/
def detectTesting (dependencies : List (String × String)) : String :=
  if getTruthy dependencies "jest" then "Jest"
  else if getTruthy dependencies "vitest" then "Vitest"
  else if getTruthy dependencies "cypress" then "Cypress"
  else if getTruthy dependencies "@testing-library/react" then "Testing Library"
  else "None detected"

/-- `CodebaseAnalyzer.detectTechnology`.  The `hasReact`, `hasVue` and
`hasAngular` values are JavaScript truthy values (boolean-or-version-string);
they are modelled by their truthiness, which is all the renderer and callers
consume. -/
def detectTechnology (fileTypes : CategoryBuckets) (dependencies : DependencyRecord) : TechnologyProfile :=
  let deps := jsMerge dependencies.dependencies dependencies.devDependencies
  { framework := detectFramework deps
    language := detectLanguage fileTypes
    styling := detectStyling fileTypes deps
    bundler := detectBundler deps
    testing := detectTesting deps
    hasTypeScript := decide (0 < fileTypes.typescript.length) || fileTypes.react.any (fun f => endsS f ".tsx")
    hasReact := decide (0 < fileTypes.react.length) || getTruthy deps "react"
    hasVue := decide (0 < fileTypes.vue.length) || getTruthy deps "vue"
    hasAngular := getTruthy deps "@angular/core" }

/-- Node `path.relative(root, file)` for the walker-produced paths used
here, which all have the form `root ++ "/" ++ rest`: strip that prefix. -/
def relativeTo (root file : String) : String :=
  if startsL (root ++ "/").data file.data then
    ⟨file.data.drop (root ++ "/").data.length⟩
  else file

/-- Node `path.dirname` for relative paths: the components before the last
slash rejoined, `"."` when there is no slash. -/
def dirnameOf (p : String) : String :=
  let comps := splitChar '/' p.data
  if comps.length ≤ 1 then "." else joinSlash ((comps.map List.asString).dropLast)

/-- JavaScript `Set.add` insertion order: keep the first occurrence. -/
def insertUnique (l : List String) (s : String) : List String :=
  if l.contains s then l else l ++ [s]

/-- Insertion step of sorting. -/
def insertSorted (s : String) : List String → List String
  | [] => [s]
  | t :: ts => if s ≤ t then s :: t :: ts else t :: insertSorted s ts

/-- JavaScript default `Array.sort` on the (duplicate-free) directory list:
lexicographic string order.  Insertion sort is extensionally the sort. -/
def sortStrings (l : List String) : List String :=
  l.foldr insertSorted []

/-- The structure summary of `analyzeStructure`. -/
structure StructureInfo where
  directories : List String
  hasSrcFolder : Bool
  hasPublicFolder : Bool
  hasComponentsFolder : Bool
  hasPagesFolder : Bool
  hasApiFolder : Bool

/-- `CodebaseAnalyzer.analyzeStructure`. -/
def analyzeStructure (files : List String) (projectPath : String) : StructureInfo :=
  let directories := files.foldl (fun acc file =>
    let dir := dirnameOf (relativeTo projectPath file)
    if dir == "." then acc else insertUnique acc dir) []
  { directories := sortStrings directories
    hasSrcFolder := directories.contains "src"
    hasPublicFolder := directories.contains "public"
    hasComponentsFolder := directories.any (fun dir => occursS dir "components")
    hasPagesFolder := directories.any (fun dir => occursS dir "pages")
    hasApiFolder := directories.any (fun dir => occursS dir "api") }

/-- The analysis record `analyzeCodebase` assembles (field order as in the
source; `structure` is a Lean keyword, hence `structure'`). -/
structure AnalysisRecord where
  projectName : String
  totalFiles : Nat
  fileTypes : CategoryBuckets
  importantFiles : ImportantFiles
  dependencies : DependencyRecord
  technology : TechnologyProfile
  structure' : StructureInfo

/-- `CodebaseAnalyzer.analyzeCodebase`.  The `root` argument is the node the
project path resolves to on the modelled filesystem, `none` when the path
does not exist.  Console logging is omitted. -/
def analyzeCodebase (root : Option FSNode) (projectPath : String) : AnalysisRecord :=
  let allFiles := findAllFiles root projectPath
  let fileTypes := categorizeFiles allFiles
  let importantFiles := identifyImportantFiles allFiles
  let dependencies := analyzeDependencies (manifestReadOf root)
  { projectName := basenameOf projectPath
    totalFiles := allFiles.length
    fileTypes := fileTypes
    importantFiles := importantFiles
    dependencies := dependencies
    technology := detectTechnology fileTypes dependencies
    structure' := analyzeStructure allFiles projectPath }

/-- Right-nested concatenation of a list of strings (the head followed by
the concatenation of the tail). -/
def concatR : List String → String
  | [] => ""
  | [s] => s
  | s :: rest => s ++ concatR rest

/-- The built-in default template of `PromptGenerator.getDefaultTemplate`,
written as its lines (every segment after the first led by its newline;
braces are written `\x7b`/`\x7d` and apostrophes `\x27`).  Concatenated in
order the segments are the source's template literal byte for byte. -/
def defaultTemplateSegs : List String :=
  ["# 🤖 AI CODEBASE ANALYSIS",
   "\n",
   "\n## 📊 PROJECT OVERVIEW",
   "\n- **Project Name**: \x7b\x7bprojectName\x7d\x7d",
   "\n- **Total Files**: \x7b\x7btotalFiles\x7d\x7d",
   "\n- **Main Framework**: \x7b\x7btechnology.framework\x7d\x7d",
   "\n- **Language**: \x7b\x7btechnology.language\x7d\x7d",
   "\n- **Styling**: \x7b\x7btechnology.styling\x7d\x7d",
   "\n- **Bundler**: \x7b\x7btechnology.bundler\x7d\x7d",
   "\n- **Testing**: \x7b\x7btechnology.testing\x7d\x7d",
   "\n",
   "\n## 🏗️ TECHNOLOGY STACK",
   "\n- **TypeScript**: \x7b\x7btechnology.hasTypeScript ? \x27Yes\x27 : \x27No\x27\x7d\x7d",
   "\n- **React**: \x7b\x7btechnology.hasReact ? \x27Yes\x27 : \x27No\x27\x7d\x7d",
   "\n- **Vue**: \x7b\x7btechnology.hasVue ? \x27Yes\x27 : \x27No\x27\x7d\x7d",
   "\n- **Angular**: \x7b\x7btechnology.hasAngular ? \x27Yes\x27 : \x27No\x27\x7d\x7d",
   "\n",
   "\n## 📁 PROJECT STRUCTURE",
   "\n- **Has src/ folder**: \x7b\x7bstructure.hasSrcFolder ? \x27Yes\x27 : \x27No\x27\x7d\x7d",
   "\n- **Has public/ folder**: \x7b\x7bstructure.hasPublicFolder ? \x27Yes\x27 : \x27No\x27\x7d\x7d",
   "\n- **Has components/ folder**: \x7b\x7bstructure.hasComponentsFolder ? \x27Yes\x27 : \x27No\x27\x7d\x7d",
   "\n- **Has pages/ folder**: \x7b\x7bstructure.hasPagesFolder ? \x27Yes\x27 : \x27No\x27\x7d\x7d",
   "\n- **Has api/ folder**: \x7b\x7bstructure.hasApiFolder ? \x27Yes\x27 : \x27No\x27\x7d\x7d",
   "\n",
   "\n## 📂 FILE BREAKDOWN",
   "\n- **JavaScript Files**: \x7b\x7bfileTypes.javascript.length\x7d\x7d",
   "\n- **TypeScript Files**: \x7b\x7bfileTypes.typescript.length\x7d\x7d",
   "\n- **React Components**: \x7b\x7bfileTypes.react.length\x7d\x7d",
   "\n- **Vue Components**: \x7b\x7bfileTypes.vue.length\x7d\x7d",
   "\n- **Style Files**: \x7b\x7bfileTypes.styles.length\x7d\x7d",
   "\n- **HTML Files**: \x7b\x7bfileTypes.html.length\x7d\x7d",
   "\n- **Images**: \x7b\x7bfileTypes.images.length\x7d\x7d",
   "\n- **Config Files**: \x7b\x7bfileTypes.config.length\x7d\x7d",
   "\n- **Documentation**: \x7b\x7bfileTypes.documentation.length\x7d\x7d",
   "\n- **Tests**: \x7b\x7bfileTypes.tests.length\x7d\x7d",
   "\n",
   "\n## 🔑 IMPORTANT FILES",
   "\n**Entry Points**: \x7b\x7bimportantFiles.entryPoints.join(\x27, \x27) || \x27None found\x27\x7d\x7d",
   "\n**Components**: \x7b\x7bimportantFiles.components.slice(0, 10).join(\x27, \x27) || \x27None found\x27\x7d\x7d",
   "\n**Pages**: \x7b\x7bimportantFiles.pages.slice(0, 10).join(\x27, \x27) || \x27None found\x27\x7d\x7d",
   "\n**API Files**: \x7b\x7bimportantFiles.api.slice(0, 10).join(\x27, \x27) || \x27None found\x27\x7d\x7d",
   "\n**Config Files**: \x7b\x7bimportantFiles.config.join(\x27, \x27) || \x27None found\x27\x7d\x7d",
   "\n",
   "\n## 📦 DEPENDENCIES",
   "\n**Main Dependencies**: \x7b\x7bObject.keys(dependencies.dependencies).slice(0, 10).join(\x27, \x27) || \x27None\x27\x7d\x7d",
   "\n**Dev Dependencies**: \x7b\x7bObject.keys(dependencies.devDependencies).slice(0, 10).join(\x27, \x27) || \x27None\x27\x7d\x7d",
   "\n",
   "\n## 💡 USER REQUEST",
   "\n\x7b\x7buserQuestion || \x27[Please specify what you need help with]\x27\x7d\x7d",
   "\n",
   "\n## 🎯 WHAT I NEED HELP WITH",
   "\nPlease analyze the codebase structure above and help me with the requested task. Consider the technology stack and project structure when providing solutions.",
   "\n",
   "\n**Examples of what you can help with:**",
   "\n- Adding new features or components",
   "\n- Fixing bugs or issues",
   "\n- Optimizing performance",
   "\n- Improving code structure",
   "\n- Adding tests",
   "\n- Setting up new tools or libraries",
   "\n- Code refactoring",
   "\n- Documentation improvements",
   "\n"]

/-- `PromptGenerator.getDefaultTemplate`: the default template string. -/
def getDefaultTemplate : String :=
  concatR defaultTemplateSegs

/-- The joined-basenames-with-fallback value inserted for an
`importantFiles` placeholder: comma-joined basenames, or the literal
`None found` when the joined string is empty. -/
def roleValue (files : List String) : String :=
  strFallback (joinComma (files.map basenameOf)) "None found"

/-- The first-ten-keys-with-fallback value inserted for a dependency-summary
pattern: the first ten key names comma-joined, or the literal `None` when
that is empty. -/
def depsValue (m : List (String × String)) : String :=
  strFallback (joinComma ((m.map Prod.fst).take 10)) "None"

/-- The 37 global literal replacements of `PromptGenerator.populateTemplate`
as ordered (pattern, value) pairs, in source order.  The
`if (analysis.technology)` style guards are always taken because the
modelled analysis record always carries its sub-records.
`analysis.projectName || 'Unknown'` and siblings are string-falsiness
fallbacks (`strFallback`); `analysis.totalFiles || 0` renders the number
itself, `0` printing identically on both sides of the `||`.  The two
dependency patterns reproduce the source regular expressions exactly: they
expect the literal text `join('', '')`, not the `join(', ')` that the
shipped templates contain. -/
def replacements (analysis : AnalysisRecord) (userQuestion : String) : List (String × String) :=
  [("\x7b\x7bprojectName\x7d\x7d", strFallback analysis.projectName "Unknown"),
   ("\x7b\x7btotalFiles\x7d\x7d", toString analysis.totalFiles),
   ("\x7b\x7buserQuestion\x7d\x7d", userQuestion),
   ("\x7b\x7btechnology.framework\x7d\x7d", strFallback analysis.technology.framework "Unknown"),
   ("\x7b\x7btechnology.language\x7d\x7d", strFallback analysis.technology.language "Unknown"),
   ("\x7b\x7btechnology.styling\x7d\x7d", strFallback analysis.technology.styling "Unknown"),
   ("\x7b\x7btechnology.bundler\x7d\x7d", strFallback analysis.technology.bundler "Unknown"),
   ("\x7b\x7btechnology.testing\x7d\x7d", strFallback analysis.technology.testing "Unknown"),
   ("\x7b\x7btechnology.hasTypeScript\x7d\x7d", if analysis.technology.hasTypeScript then "Yes" else "No"),
   ("\x7b\x7btechnology.hasReact\x7d\x7d", if analysis.technology.hasReact then "Yes" else "No"),
   ("\x7b\x7btechnology.hasVue\x7d\x7d", if analysis.technology.hasVue then "Yes" else "No"),
   ("\x7b\x7btechnology.hasAngular\x7d\x7d", if analysis.technology.hasAngular then "Yes" else "No"),
   ("\x7b\x7bstructure.hasSrcFolder\x7d\x7d", if analysis.structure'.hasSrcFolder then "Yes" else "No"),
   ("\x7b\x7bstructure.hasPublicFolder\x7d\x7d", if analysis.structure'.hasPublicFolder then "Yes" else "No"),
   ("\x7b\x7bstructure.hasComponentsFolder\x7d\x7d", if analysis.structure'.hasComponentsFolder then "Yes" else "No"),
   ("\x7b\x7bstructure.hasPagesFolder\x7d\x7d", if analysis.structure'.hasPagesFolder then "Yes" else "No"),
   ("\x7b\x7bstructure.hasApiFolder\x7d\x7d", if analysis.structure'.hasApiFolder then "Yes" else "No"),
   ("\x7b\x7bfileTypes.javascript.length\x7d\x7d", toString analysis.fileTypes.javascript.length),
   ("\x7b\x7bfileTypes.typescript.length\x7d\x7d", toString analysis.fileTypes.typescript.length),
   ("\x7b\x7bfileTypes.react.length\x7d\x7d", toString analysis.fileTypes.react.length),
   ("\x7b\x7bfileTypes.vue.length\x7d\x7d", toString analysis.fileTypes.vue.length),
   ("\x7b\x7bfileTypes.angular.length\x7d\x7d", toString analysis.fileTypes.angular.length),
   ("\x7b\x7bfileTypes.styles.length\x7d\x7d", toString analysis.fileTypes.styles.length),
   ("\x7b\x7bfileTypes.html.length\x7d\x7d", toString analysis.fileTypes.html.length),
   ("\x7b\x7bfileTypes.images.length\x7d\x7d", toString analysis.fileTypes.images.length),
   ("\x7b\x7bfileTypes.config.length\x7d\x7d", toString analysis.fileTypes.config.length),
   ("\x7b\x7bfileTypes.documentation.length\x7d\x7d", toString analysis.fileTypes.documentation.length),
   ("\x7b\x7bfileTypes.tests.length\x7d\x7d", toString analysis.fileTypes.tests.length),
   ("\x7b\x7bfileTypes.other.length\x7d\x7d", toString analysis.fileTypes.other.length),
   ("\x7b\x7bimportantFiles.entryPoints\x7d\x7d", roleValue analysis.importantFiles.entryPoints),
   ("\x7b\x7bimportantFiles.components\x7d\x7d", roleValue analysis.importantFiles.components),
   ("\x7b\x7bimportantFiles.pages\x7d\x7d", roleValue analysis.importantFiles.pages),
   ("\x7b\x7bimportantFiles.api\x7d\x7d", roleValue analysis.importantFiles.api),
   ("\x7b\x7bimportantFiles.config\x7d\x7d", roleValue analysis.importantFiles.config),
   ("\x7b\x7bimportantFiles.styles\x7d\x7d", roleValue analysis.importantFiles.styles),
   ("\x7b\x7bObject.keys(dependencies.dependencies).slice(0, 10).join(\x27\x27, \x27\x27) || \x27None\x27\x7d\x7d", depsValue analysis.dependencies.dependencies),
   ("\x7b\x7bObject.keys(dependencies.devDependencies).slice(0, 10).join(\x27\x27, \x27\x27) || \x27None\x27\x7d\x7d", depsValue analysis.dependencies.devDependencies)]

/-- One `populatedTemplate = populatedTemplate.replace(...)` statement. -/
def applyRepl (t : String) (pr : String × String) : String :=
  replaceStr t pr.1 pr.2

/-- `PromptGenerator.populateTemplate`: the 37 sequential global literal
replacements applied in source order. -/
def populateTemplate (template : String) (analysis : AnalysisRecord) (userQuestion : String) : String :=
  (replacements analysis userQuestion).foldl applyRepl template

/-- `PromptGenerator.generatePrompt`.  `templates` models the
`this.templates` store loaded from the templates directory;
`this.templates[templateType] || this.getDefaultTemplate()` falls back to
the built-in default on a missing key and on an empty stored template
alike. -/
def generatePrompt (templates : List (String × String)) (analysis : AnalysisRecord) (userQuestion : String) (templateType : String) : String :=
  let template := strFallback ((templates.lookup templateType).getD "") getDefaultTemplate
  populateTemplate template analysis userQuestion

/-- The `taskSpecificInstructions` object of
`PromptGenerator.generateSpecializedPrompt`: the source defines guidance
blocks for exactly four task types. -/
def taskSpecificInstructions : List (String × String) :=
  [("feature",
    "\n## 🚀 FEATURE DEVELOPMENT INSTRUCTIONS\n- Consider the existing component structure and patterns\n- Follow the established coding conventions\n- Ensure compatibility with the current technology stack\n- Add appropriate tests if testing framework is available\n- Update documentation if needed\n"),
   ("bugfix",
    "\n## 🐛 BUG FIXING INSTRUCTIONS\n- Analyze the error or issue carefully\n- Check for similar patterns in existing code\n- Ensure the fix doesn\x27t break existing functionality\n- Consider edge cases and error handling\n- Test the fix thoroughly\n"),
   ("optimization",
    "\n## ⚡ OPTIMIZATION INSTRUCTIONS\n- Focus on performance bottlenecks\n- Consider bundle size and loading times\n- Look for code duplication and refactoring opportunities\n- Optimize for the detected bundler and framework\n- Maintain code readability and maintainability\n"),
   ("refactor",
    "\n## 🔧 REFACTORING INSTRUCTIONS\n- Maintain existing functionality\n- Improve code structure and organization\n- Follow best practices for the technology stack\n- Ensure backward compatibility\n- Update related documentation\n")]

/-- `PromptGenerator.generateSpecializedPrompt`:
`basePrompt + (taskSpecificInstructions[taskType] || '')`, the base prompt
being `generatePrompt(analysis, description)` with the default template
type. -/
def generateSpecializedPrompt (templates : List (String × String)) (analysis : AnalysisRecord) (taskType description : String) : String :=
  let basePrompt := generatePrompt templates analysis description "default"
  let instructions := (taskSpecificInstructions.lookup taskType).getD ""
  basePrompt ++ instructions

/-- `AIWebAgent.analyzeAndGeneratePrompt` (index.js): validates that the
project path exists (`fs.existsSync`) and throws otherwise; on success runs
the analyzer and the prompt generator.  Saving the prompt and console
output are caller-side effects outside the modelled core; the thrown error
is modelled as `Except.error` carrying the thrown message. -/
def analyzeAndGeneratePrompt (templates : List (String × String)) (root : Option FSNode) (projectPath userQuestion templateType : String) : Except String (AnalysisRecord × String) :=
  if root.isNone then
    .error ("Project path does not exist: " ++ projectPath)
  else
    let analysis := analyzeCodebase root projectPath
    let prompt := generatePrompt templates analysis userQuestion templateType
    .ok (analysis, prompt)

/-- The concatenation of all twelve buckets, in declaration order. -/
def allBucketsList (cats : CategoryBuckets) : List String :=
  cats.javascript ++ cats.typescript ++ cats.react ++ cats.vue ++ cats.angular ++
    cats.styles ++ cats.html ++ cats.images ++ cats.config ++ cats.documentation ++
    cats.tests ++ cats.other

/-- A dependency record declaring both `next` and `react` at runtime. -/
def drNextReact : DependencyRecord :=
  { dependencies := [("next", "14.0.0"), ("react", "18.2.0")],
    devDependencies := [], scripts := [], type := "module" }

/-- A technology-stack line's placeholder from the built-in default
template: the ternary-shaped boolean placeholder, exactly as the template
writes it. -/
def ternaryTsTemplate : String :=
  "\x7b\x7btechnology.hasTypeScript ? \x27Yes\x27 : \x27No\x27\x7d\x7d"

/-- The plain boolean placeholder the renderer's pattern actually matches. -/
def plainTsTemplate : String := "\x7b\x7btechnology.hasTypeScript\x7d\x7d"

/-- Plain placeholder for the `hasReact` flag. -/
def plainReactTemplate : String := "\x7b\x7btechnology.hasReact\x7d\x7d"

/-- Plain placeholder for the `hasVue` flag. -/
def plainVueTemplate : String := "\x7b\x7btechnology.hasVue\x7d\x7d"

/-- Plain placeholder for the `hasAngular` flag. -/
def plainAngularTemplate : String := "\x7b\x7btechnology.hasAngular\x7d\x7d"

/-- An empty project's analysis record with the four boolean capability
flags overridden. -/
def analysisFlags (ts rc vu an : Bool) : AnalysisRecord :=
  let base := analyzeCodebase (some (.dir .nil)) "project"
  { base with technology := { base.technology with
      hasTypeScript := ts, hasReact := rc, hasVue := vu, hasAngular := an } }

/-- An empty project's analysis record with the importance-role lists
replaced. -/
def rolesAnalysis (imp : ImportantFiles) : AnalysisRecord :=
  let base := analyzeCodebase (some (.dir .nil)) "project"
  { base with importantFiles := imp }

/-- The analysis of an empty project directory (no files, no manifest). -/
def emptyProjectAnalysis : AnalysisRecord :=
  analyzeCodebase (some (.dir .nil)) "/empty-project"

/-- The default-template render of the empty-project analysis. -/
def emptyProjectRender : String :=
  generatePrompt [] emptyProjectAnalysis "" "default"

/-- The per-segment renders of the default template against the
empty-project analysis, as concrete strings (checked by evaluation in
`emptyProjectSegRenders_eval`). -/
def emptyProjectSegRenders : List String :=
  ["# 🤖 AI CODEBASE ANALYSIS",
   "\n",
   "\n## 📊 PROJECT OVERVIEW",
   "\n- **Project Name**: empty-project",
   "\n- **Total Files**: 0",
   "\n- **Main Framework**: Vanilla JavaScript",
   "\n- **Language**: Unknown",
   "\n- **Styling**: Unknown",
   "\n- **Bundler**: Unknown",
   "\n- **Testing**: None detected",
   "\n",
   "\n## 🏗️ TECHNOLOGY STACK",
   "\n- **TypeScript**: \x7b\x7btechnology.hasTypeScript ? \x27Yes\x27 : \x27No\x27\x7d\x7d",
   "\n- **React**: \x7b\x7btechnology.hasReact ? \x27Yes\x27 : \x27No\x27\x7d\x7d",
   "\n- **Vue**: \x7b\x7btechnology.hasVue ? \x27Yes\x27 : \x27No\x27\x7d\x7d",
   "\n- **Angular**: \x7b\x7btechnology.hasAngular ? \x27Yes\x27 : \x27No\x27\x7d\x7d",
   "\n",
   "\n## 📁 PROJECT STRUCTURE",
   "\n- **Has src/ folder**: \x7b\x7bstructure.hasSrcFolder ? \x27Yes\x27 : \x27No\x27\x7d\x7d",
   "\n- **Has public/ folder**: \x7b\x7bstructure.hasPublicFolder ? \x27Yes\x27 : \x27No\x27\x7d\x7d",
   "\n- **Has components/ folder**: \x7b\x7bstructure.hasComponentsFolder ? \x27Yes\x27 : \x27No\x27\x7d\x7d",
   "\n- **Has pages/ folder**: \x7b\x7bstructure.hasPagesFolder ? \x27Yes\x27 : \x27No\x27\x7d\x7d",
   "\n- **Has api/ folder**: \x7b\x7bstructure.hasApiFolder ? \x27Yes\x27 : \x27No\x27\x7d\x7d",
   "\n",
   "\n## 📂 FILE BREAKDOWN",
   "\n- **JavaScript Files**: 0",
   "\n- **TypeScript Files**: 0",
   "\n- **React Components**: 0",
   "\n- **Vue Components**: 0",
   "\n- **Style Files**: 0",
   "\n- **HTML Files**: 0",
   "\n- **Images**: 0",
   "\n- **Config Files**: 0",
   "\n- **Documentation**: 0",
   "\n- **Tests**: 0",
   "\n",
   "\n## 🔑 IMPORTANT FILES",
   "\n**Entry Points**: \x7b\x7bimportantFiles.entryPoints.join(\x27, \x27) || \x27None found\x27\x7d\x7d",
   "\n**Components**: \x7b\x7bimportantFiles.components.slice(0, 10).join(\x27, \x27) || \x27None found\x27\x7d\x7d",
   "\n**Pages**: \x7b\x7bimportantFiles.pages.slice(0, 10).join(\x27, \x27) || \x27None found\x27\x7d\x7d",
   "\n**API Files**: \x7b\x7bimportantFiles.api.slice(0, 10).join(\x27, \x27) || \x27None found\x27\x7d\x7d",
   "\n**Config Files**: \x7b\x7bimportantFiles.config.join(\x27, \x27) || \x27None found\x27\x7d\x7d",
   "\n",
   "\n## 📦 DEPENDENCIES",
   "\n**Main Dependencies**: \x7b\x7bObject.keys(dependencies.dependencies).slice(0, 10).join(\x27, \x27) || \x27None\x27\x7d\x7d",
   "\n**Dev Dependencies**: \x7b\x7bObject.keys(dependencies.devDependencies).slice(0, 10).join(\x27, \x27) || \x27None\x27\x7d\x7d",
   "\n",
   "\n## 💡 USER REQUEST",
   "\n\x7b\x7buserQuestion || \x27[Please specify what you need help with]\x27\x7d\x7d",
   "\n",
   "\n## 🎯 WHAT I NEED HELP WITH",
   "\nPlease analyze the codebase structure above and help me with the requested task. Consider the technology stack and project structure when providing solutions.",
   "\n",
   "\n**Examples of what you can help with:**",
   "\n- Adding new features or components",
   "\n- Fixing bugs or issues",
   "\n- Optimizing performance",
   "\n- Improving code structure",
   "\n- Adding tests",
   "\n- Setting up new tools or libraries",
   "\n- Code refactoring",
   "\n- Documentation improvements",
   "\n"]

/-- The main-dependencies line of the shipped default template (both the
built-in string and `templates/default.md` write `join(', ')`). -/
def depLineTemplate : String :=
  "**Main Dependencies**: \x7b\x7bObject.keys(dependencies.dependencies).slice(0, 10).join(\x27, \x27) || \x27None\x27\x7d\x7d"

/-- The text the source's replacement regular expression actually matches:
`join('', '')` with doubled quotes, unlike the template's `join(', ')`. -/
def depCodePatternTemplate : String :=
  "\x7b\x7bObject.keys(dependencies.dependencies).slice(0, 10).join(\x27\x27, \x27\x27) || \x27None\x27\x7d\x7d"

/-- An empty project's analysis record with two runtime dependencies. -/
def depsAnalysis : AnalysisRecord :=
  let base := analyzeCodebase (some (.dir .nil)) "project"
  { base with dependencies :=
      { dependencies := [("react", "18.2.0"), ("next", "14.0.0")],
        devDependencies := [], scripts := [], type := "module" } }

/-! ## Theorems -/

theorem startsL_self (l : List Char) : startsL l l = true := by
  induction l with
  | nil => rfl
  | cons c cs ih => simp [startsL, ih]

theorem startsL_trans {p q t : List Char} (hq : startsL q t = true)
    (hp : startsL p q = true) : startsL p t = true := by
  induction p generalizing q t with
  | nil => rfl
  | cons a ps ih =>
    cases q with
    | nil => simp [startsL] at hp
    | cons b qs =>
      cases t with
      | nil => simp [startsL] at hq
      | cons c ts =>
        simp only [startsL, Bool.and_eq_true, beq_iff_eq] at hp hq ⊢
        exact ⟨hp.1.trans hq.1, ih hq.2 hp.2⟩

theorem occursL_mono {p q : List Char} {s : List Char}
    (h : occursL q s = true) (hp : startsL p q = true) : occursL p s = true := by
  induction s with
  | nil =>
    simp only [occursL] at h ⊢
    exact startsL_trans h hp
  | cons c cs ih =>
    simp only [occursL, Bool.or_eq_true] at h ⊢
    cases h with
    | inl h => exact Or.inl (startsL_trans h hp)
    | inr h => exact Or.inr (ih h)

theorem replL_of_not_occurs {pat : List Char} (rep : List Char) :
    ∀ (s : List Char), occursL pat s = false → replL pat rep 0 s = s := by
  intro s
  induction s with
  | nil => intro _; rfl
  | cons c cs ih =>
    intro hs
    simp only [occursL, Bool.or_eq_false_iff] at hs
    simp [replL, hs.1, ih hs.2]

/-- A pass whose pattern does not occur in the scanned string leaves the
string unchanged, whatever the replacement value. -/
theorem replaceStr_of_not_occurs (s pat rep : String)
    (h : occursS s pat = false) : replaceStr s pat rep = s := by
  show String.mk (replL pat.data rep.data 0 s.data) = s
  rw [replL_of_not_occurs rep.data s.data h]

/-- If an extension of `p` occurs in `s`, so does `p`; contrapositive form
used to push a no-open-braces fact through every brace-led pattern. -/
theorem occursS_extend_false (s p q : String) (h : occursS s p = false)
    (hpq : startsL p.data q.data = true) : occursS s q = false := by
  cases hq : occursS s q with
  | false => rfl
  | true => exact absurd (occursL_mono hq hpq) (by simp [occursS] at h ⊢; exact h)

theorem replL_skip_all (pat rep : List Char) :
    ∀ (l : List Char), replL pat rep l.length l = [] := by
  intro l
  induction l with
  | nil => rfl
  | cons c cs ih => simpa [replL] using ih

/-- Replacing a nonempty pattern inside the string that consists of exactly
that pattern yields exactly the replacement value. -/
theorem replaceStr_whole (pat rep : String) (c : Char) (cs : List Char)
    (h : pat.data = c :: cs) : replaceStr pat pat rep = rep := by
  show String.mk (replL pat.data rep.data 0 pat.data) = rep
  rw [h]
  have hstart : startsL (c :: cs) (c :: cs) = true := startsL_self _
  have hlen : (c :: cs).length - 1 = cs.length := by simp
  simp only [replL, hstart, if_true, hlen, replL_skip_all, List.append_nil]

/-- `replaceStr_whole` with the nonemptiness given as a string disequality. -/
theorem replaceStr_self_pat (pat rep : String) (h : pat ≠ "") :
    replaceStr pat pat rep = rep := by
  cases pat with
  | mk data =>
    cases data with
    | nil => exact absurd rfl h
    | cons c cs => exact replaceStr_whole ⟨c :: cs⟩ rep c cs rfl

theorem startsL_length {pat l : List Char} (h : startsL pat l = true) :
    pat.length ≤ l.length := by
  induction pat generalizing l with
  | nil => simp
  | cons p ps ih =>
    cases l with
    | nil => simp [startsL] at h
    | cons c cs =>
      simp only [startsL, Bool.and_eq_true] at h
      simpa using ih h.2

/-- A newline-free pattern matches at the head of `s ++ '\n' :: b` exactly
when it matches at the head of `s`: a match reaching past `s` would have to
match its own character against the newline. -/
theorem startsL_append_nl {pat : List Char} (hpat : '\n' ∉ pat)
    (s b : List Char) :
    startsL pat (s ++ '\n' :: b) = startsL pat s := by
  induction pat generalizing s with
  | nil => rfl
  | cons p ps ih =>
    cases s with
    | nil =>
      have hp : (p == '\n') = false := by
        simp only [beq_eq_false_iff_ne, ne_eq]
        intro he
        exact hpat (he ▸ List.mem_cons_self p ps)
      simp [startsL, hp]
    | cons x xs =>
      have hps : '\n' ∉ ps := fun hm => hpat (List.mem_cons_of_mem p hm)
      simp only [List.cons_append, List.append_eq, startsL, ih hps]

/-- A replacement pass with a newline-free pattern distributes over a
newline boundary: no occurrence and no skip can cross it. -/
theorem replL_append_nl {pat rep : List Char} (hpat : '\n' ∉ pat) :
    ∀ (a : List Char) (skip : Nat) (b : List Char), skip ≤ a.length →
      replL pat rep skip (a ++ '\n' :: b) =
        replL pat rep skip a ++ replL pat rep 0 ('\n' :: b) := by
  intro a
  induction a with
  | nil =>
    intro skip b hskip
    have h0 : skip = 0 := Nat.le_zero.mp hskip
    subst h0
    rfl
  | cons x xs ih =>
    intro skip b hskip
    cases skip with
    | succ k =>
      have hk : k ≤ xs.length := by simpa using hskip
      simpa only [List.cons_append, List.append_eq, replL] using ih k b hk
    | zero =>
      have hs : startsL pat (x :: (xs ++ '\n' :: b)) = startsL pat (x :: xs) := by
        simpa only [List.cons_append] using startsL_append_nl hpat (x :: xs) b
      simp only [List.cons_append, List.append_eq]
      cases hmatch : startsL pat (x :: xs) with
      | true =>
        have hlen : pat.length - 1 ≤ xs.length := by
          have h1 := startsL_length hmatch
          simp only [List.length_cons] at h1
          omega
        rw [hmatch] at hs
        simp only [List.cons_append, List.append_eq, replL, hs, hmatch, if_true,
          ih (pat.length - 1) b hlen, List.append_assoc]
      | false =>
        rw [hmatch] at hs
        simp only [List.cons_append, List.append_eq, replL, hs, hmatch, Bool.false_eq_true,
          if_false, ih 0 b (Nat.zero_le _)]

/-- A newline-free nonempty pattern cannot match at a newline, so a pass
maps a newline-led string to a newline-led string. -/
theorem replL_nl_head {pat rep : List Char} (hpat : '\n' ∉ pat)
    (hne : pat ≠ []) (b : List Char) :
    replL pat rep 0 ('\n' :: b) = '\n' :: replL pat rep 0 b := by
  have hstart : startsL pat ('\n' :: b) = false := by
    cases pat with
    | nil => exact absurd rfl hne
    | cons p ps =>
      have hp : (p == '\n') = false := by
        simp only [beq_eq_false_iff_ne, ne_eq]
        intro he
        exact hpat (he ▸ List.mem_cons_self p ps)
      simp [startsL, hp]
  simp [replL, hstart]

theorem data_append (a b : String) : (a ++ b).data = a.data ++ b.data := by
  cases a
  cases b
  rfl

theorem mk_append (l₁ l₂ : List Char) :
    String.mk (l₁ ++ l₂) = String.mk l₁ ++ String.mk l₂ := rfl

theorem eq_empty_of_data_nil {s : String} (h : s.data = []) : s = "" := by
  cases s with
  | mk d => exact congrArg String.mk h

/-- The condition a replacement pass must satisfy for the boundary
lemmas: a newline-free, nonempty pattern. -/
def patOk (pr : String × String) : Prop :=
  '\n' ∉ pr.1.data ∧ pr.1 ≠ ""

/-- `replaceStr` distributes over a newline boundary. -/
theorem replaceStr_append_nl (a b pat rep : String) (hpat : '\n' ∉ pat.data)
    (hb : ∃ bd, b.data = '\n' :: bd) :
    replaceStr (a ++ b) pat rep = replaceStr a pat rep ++ replaceStr b pat rep := by
  obtain ⟨bd, hbd⟩ := hb
  show String.mk (replL pat.data rep.data 0 (a ++ b).data) = _
  rw [data_append, hbd, replL_append_nl hpat a.data 0 bd (Nat.zero_le _), mk_append,
    ← hbd]
  rfl

/-- `replaceStr` with a newline-free nonempty pattern preserves
newline-led-ness. -/
theorem replaceStr_nl_head (b pat rep : String) (hpat : '\n' ∉ pat.data)
    (hne : pat ≠ "") (hb : ∃ bd, b.data = '\n' :: bd) :
    ∃ bd', (replaceStr b pat rep).data = '\n' :: bd' := by
  obtain ⟨bd, hbd⟩ := hb
  have hne' : pat.data ≠ [] := fun h => hne (eq_empty_of_data_nil h)
  refine ⟨replL pat.data rep.data 0 bd, ?_⟩
  show replL pat.data rep.data 0 b.data = _
  rw [hbd, replL_nl_head hpat hne' bd]

/-- A pass list all of whose patterns are absent leaves the string
unchanged. -/
theorem foldl_applyRepl_not_occurs (ps : List (String × String)) (t : String)
    (h : ∀ pr ∈ ps, occursS t pr.1 = false) :
    ps.foldl applyRepl t = t := by
  induction ps with
  | nil => rfl
  | cons p ps ih =>
    rw [List.foldl_cons,
      show applyRepl t p = t from
        replaceStr_of_not_occurs t p.1 p.2 (h p (List.mem_cons_self p ps))]
    exact ih fun pr hpr => h pr (List.mem_cons_of_mem p hpr)

/-- A pass list with well-formed patterns preserves newline-led-ness. -/
theorem foldl_applyRepl_nl_head (ps : List (String × String))
    (hps : ∀ pr ∈ ps, patOk pr) (b : String)
    (hb : ∃ bd, b.data = '\n' :: bd) :
    ∃ bd', (ps.foldl applyRepl b).data = '\n' :: bd' := by
  induction ps generalizing b with
  | nil => exact hb
  | cons p ps ih =>
    rw [List.foldl_cons]
    have hp := hps p (List.mem_cons_self p ps)
    exact ih (fun pr hpr => hps pr (List.mem_cons_of_mem p hpr))
      (applyRepl b p) (replaceStr_nl_head b p.1 p.2 hp.1 hp.2 hb)

/-- A pass list with well-formed patterns distributes over a newline
boundary. -/
theorem foldl_applyRepl_append_nl (ps : List (String × String))
    (hps : ∀ pr ∈ ps, patOk pr) (a b : String)
    (hb : ∃ bd, b.data = '\n' :: bd) :
    ps.foldl applyRepl (a ++ b) =
      ps.foldl applyRepl a ++ ps.foldl applyRepl b := by
  induction ps generalizing a b with
  | nil => rfl
  | cons p ps ih =>
    have hp := hps p (List.mem_cons_self p ps)
    simp only [List.foldl_cons]
    rw [show applyRepl (a ++ b) p = applyRepl a p ++ applyRepl b p from
      replaceStr_append_nl a b p.1 p.2 hp.1 hb]
    exact ih (fun pr hpr => hps pr (List.mem_cons_of_mem p hpr))
      (applyRepl a p) (applyRepl b p)
      (replaceStr_nl_head b p.1 p.2 hp.1 hp.2 hb)

/-- A pass list maps the empty string to the empty string. -/
theorem foldl_applyRepl_empty (ps : List (String × String)) :
    ps.foldl applyRepl "" = "" := by
  induction ps with
  | nil => rfl
  | cons p ps ih =>
    rw [List.foldl_cons, show applyRepl "" p = "" from rfl]
    exact ih

/-- The concatenation of a newline-led segment list is newline-led. -/
theorem concatR_nl_head (s : String) (rest : List String)
    (hs : ∃ bd, s.data = '\n' :: bd) :
    ∃ bd', (concatR (s :: rest)).data = '\n' :: bd' := by
  obtain ⟨bd, hbd⟩ := hs
  cases rest with
  | nil => exact ⟨bd, hbd⟩
  | cons s' rest' =>
    refine ⟨bd ++ (concatR (s' :: rest')).data, ?_⟩
    rw [show concatR (s :: s' :: rest') = s ++ concatR (s' :: rest') from rfl,
      data_append, hbd]
    rfl

/-- Rendering distributes over the segments of a template whose later
segments are all newline-led. -/
theorem foldl_applyRepl_concatR (ps : List (String × String))
    (hps : ∀ pr ∈ ps, patOk pr) :
    ∀ (segs : List String), (∀ s ∈ segs.drop 1, ∃ bd, s.data = '\n' :: bd) →
      ps.foldl applyRepl (concatR segs) =
        concatR (segs.map (fun s => ps.foldl applyRepl s)) := by
  intro segs
  induction segs with
  | nil => intro _; exact foldl_applyRepl_empty ps
  | cons a rest ih =>
    intro hsegs
    cases rest with
    | nil => rfl
    | cons s rest' =>
      have hs : ∃ bd, s.data = '\n' :: bd :=
        hsegs s (by simp)
      have hrest : ∀ x ∈ (s :: rest').drop 1, ∃ bd, x.data = '\n' :: bd := by
        intro x hx
        exact hsegs x (by simpa using Or.inr (by simpa using hx))
      rw [show concatR (a :: s :: rest') = a ++ concatR (s :: rest') from rfl,
        foldl_applyRepl_append_nl ps hps a (concatR (s :: rest'))
          (concatR_nl_head s rest' hs),
        ih hrest,
        show concatR ((a :: s :: rest').map (fun x => ps.foldl applyRepl x)) =
          ps.foldl applyRepl a ++
            concatR ((s :: rest').map (fun x => ps.foldl applyRepl x)) from rfl]

/-- Substring search with a newline-free pattern distributes over a
newline boundary. -/
theorem occursL_append_nl {pat : List Char} (hpat : '\n' ∉ pat) :
    ∀ (a b : List Char),
      occursL pat (a ++ '\n' :: b) = (occursL pat a || occursL pat ('\n' :: b)) := by
  intro a b
  induction a with
  | nil =>
    cases pat with
    | nil => rfl
    | cons p ps => simp [occursL, startsL]
  | cons x xs ih =>
    have hs : startsL pat (x :: (xs ++ '\n' :: b)) = startsL pat (x :: xs) := by
      simpa only [List.cons_append] using startsL_append_nl hpat (x :: xs) b
    simp only [List.cons_append, List.append_eq, occursL, hs, ih, Bool.or_assoc]

/-- Substring search with a newline-free nonempty pattern over a segment
concatenation is the disjunction of the per-segment searches. -/
theorem occursS_concatR (pat : String) (hpat : '\n' ∉ pat.data)
    (hne : pat ≠ "") :
    ∀ (segs : List String), (∀ s ∈ segs.drop 1, ∃ bd, s.data = '\n' :: bd) →
      occursS (concatR segs) pat = segs.any (fun s => occursS s pat) := by
  have hpd : pat.data ≠ [] := fun h => hne (eq_empty_of_data_nil h)
  intro segs
  induction segs with
  | nil =>
    intro _
    show occursL pat.data [] = false
    cases hp : pat.data with
    | nil => exact absurd hp hpd
    | cons p ps => simp [occursL, startsL, hp]
  | cons a rest ih =>
    intro hsegs
    cases rest with
    | nil => simp [concatR, List.any]
    | cons s rest' =>
      have hs : ∃ bd, s.data = '\n' :: bd := hsegs s (by simp)
      have hrest : ∀ x ∈ (s :: rest').drop 1, ∃ bd, x.data = '\n' :: bd := by
        intro x hx
        exact hsegs x (by simpa using Or.inr (by simpa using hx))
      obtain ⟨bd', hbd'⟩ := concatR_nl_head s rest' hs
      show occursL pat.data (concatR (a :: s :: rest')).data = _
      rw [show concatR (a :: s :: rest') = a ++ concatR (s :: rest') from rfl,
        data_append, hbd', occursL_append_nl hpat]
      rw [← hbd']
      show (occursS a pat || occursS (concatR (s :: rest')) pat) = _
      rw [ih hrest]
      simp

/-- Every replacement pattern is newline-free and nonempty, whatever the
analysis record and user question. -/
theorem replacements_patOk (analysis : AnalysisRecord) (q : String) :
    ∀ pr ∈ replacements analysis q, patOk pr := by
  intro pr hpr
  fin_cases hpr <;> exact ⟨by dsimp only; decide, by dsimp only; decide⟩

/-- Every segment of the default template after the first is led by its
newline. -/
theorem defaultSegs_nl_led :
    ∀ s ∈ defaultTemplateSegs.drop 1, ∃ bd, s.data = '\n' :: bd := by
  intro s hs
  fin_cases hs <;> exact ⟨_, rfl⟩

theorem bucketGet_push (cats : CategoryBuckets) (c d : Category) (file : String) :
    bucketGet (pushBucket cats c file) d =
      if c = d then bucketGet cats d ++ [file] else bucketGet cats d := by
  cases c <;> cases d <;> simp [pushBucket, bucketGet]

theorem bucketGet_foldl (files : List String) (cats : CategoryBuckets) (c : Category) :
    bucketGet (files.foldl (fun cats file => pushBucket cats (categoryOf file) file) cats) c =
      bucketGet cats c ++ files.filter (fun f => categoryOf f == c) := by
  induction files generalizing cats with
  | nil => simp
  | cons f fs ih =>
    simp only [List.foldl_cons, ih, List.filter_cons, bucketGet_push]
    by_cases h : categoryOf f = c
    · simp [h]
    · simp [h, List.append_assoc]

/-- Each bucket of `categorizeFiles` is exactly the input filtered by the
classification function. -/
theorem bucketGet_categorize (files : List String) (c : Category) :
    bucketGet (categorizeFiles files) c = files.filter (fun f => categoryOf f == c) := by
  have h := bucketGet_foldl files emptyBuckets c
  have hempty : bucketGet emptyBuckets c = [] := by cases c <;> rfl
  rw [hempty, List.nil_append] at h
  exact h

/-- The classification chain never selects the `angular` bucket. -/
theorem categoryOf_ne_angular (f : String) : categoryOf f ≠ Category.angular := by
  intro h
  unfold categoryOf at h
  dsimp only at h
  repeat' split at h
  all_goals cases h

theorem count_filter_beq (files : List String) (a : String) (c : Category) :
    (files.filter (fun f => categoryOf f == c)).count a =
      if categoryOf a = c then files.count a else 0 := by
  by_cases h : categoryOf a = c
  · simp [h, List.count_filter]
  · simp only [h, if_false]
    rw [List.count_eq_zero]
    intro hmem
    exact h (by simpa using (List.mem_filter.1 hmem).2)

/-- C2: the categorizer is a partition.  Every input path lands in exactly
one bucket: the concatenation of all buckets is a permutation of the input
list, the source's `angular` bucket is always empty (leaving the eleven
reachable buckets of the classification chain), and no path is a member of
two distinct buckets. -/
theorem categorizeFiles_partition (files : List String) :
    (allBucketsList (categorizeFiles files)).Perm files ∧
    (categorizeFiles files).angular = [] ∧
    (∀ f c₁ c₂, f ∈ bucketGet (categorizeFiles files) c₁ →
      f ∈ bucketGet (categorizeFiles files) c₂ → c₁ = c₂) := by
  refine ⟨?_, ?_, ?_⟩
  · rw [List.perm_iff_count]
    intro a
    have hfield : ∀ c, bucketGet (categorizeFiles files) c =
        files.filter (fun f => categoryOf f == c) := bucketGet_categorize files
    show (allBucketsList (categorizeFiles files)).count a = files.count a
    rw [show allBucketsList (categorizeFiles files) =
        bucketGet (categorizeFiles files) .javascript ++
        bucketGet (categorizeFiles files) .typescript ++
        bucketGet (categorizeFiles files) .react ++
        bucketGet (categorizeFiles files) .vue ++
        bucketGet (categorizeFiles files) .angular ++
        bucketGet (categorizeFiles files) .styles ++
        bucketGet (categorizeFiles files) .html ++
        bucketGet (categorizeFiles files) .images ++
        bucketGet (categorizeFiles files) .config ++
        bucketGet (categorizeFiles files) .documentation ++
        bucketGet (categorizeFiles files) .tests ++
        bucketGet (categorizeFiles files) .other from rfl]
    simp only [hfield, List.count_append, count_filter_beq]
    cases hc : categoryOf a <;> simp [hc]
  · have h := bucketGet_categorize files Category.angular
    rw [show bucketGet (categorizeFiles files) Category.angular =
        (categorizeFiles files).angular from rfl] at h
    rw [h, List.filter_eq_nil_iff]
    intro f _
    simpa using categoryOf_ne_angular f
  · intro f c₁ c₂ h₁ h₂
    rw [bucketGet_categorize] at h₁ h₂
    have e₁ : categoryOf f = c₁ := by simpa using (List.mem_filter.1 h₁).2
    have e₂ : categoryOf f = c₂ := by simpa using (List.mem_filter.1 h₂).2
    exact e₁ ▸ e₂

/-- Witness for C2 at a concrete input: the two-file list is a permutation
of the bucket concatenation, and membership of `src/App.jsx` in the react
bucket twice forces equal category indices. -/
theorem categorizeFiles_partition_witness :
    (allBucketsList (categorizeFiles ["src/App.jsx", "src/app.js"])).Perm
      ["src/App.jsx", "src/app.js"] ∧
    Category.react = Category.react :=
  ⟨(categorizeFiles_partition ["src/App.jsx", "src/app.js"]).1,
   (categorizeFiles_partition ["src/App.jsx", "src/app.js"]).2.2 "src/App.jsx"
     Category.react Category.react (by decide) (by decide)⟩

/-- C3: framework detection runs over the merged (runtime plus development)
dependency set in the fixed precedence order next, nuxt, vue,
`@angular/core`, react, express, with the fixed fallback label; in
particular a set containing `next` resolves to `Next.js` whatever else
(including `react`) it contains. -/
theorem detectFramework_precedence (ft : CategoryBuckets) (dr : DependencyRecord) :
    ((detectTechnology ft dr).framework =
      detectFramework (jsMerge dr.dependencies dr.devDependencies)) ∧
    (getTruthy (jsMerge dr.dependencies dr.devDependencies) "next" = true →
      (detectTechnology ft dr).framework = "Next.js") ∧
    (getTruthy (jsMerge dr.dependencies dr.devDependencies) "next" = false →
      getTruthy (jsMerge dr.dependencies dr.devDependencies) "nuxt" = true →
      (detectTechnology ft dr).framework = "Nuxt.js") ∧
    (getTruthy (jsMerge dr.dependencies dr.devDependencies) "next" = false →
      getTruthy (jsMerge dr.dependencies dr.devDependencies) "nuxt" = false →
      getTruthy (jsMerge dr.dependencies dr.devDependencies) "vue" = true →
      (detectTechnology ft dr).framework = "Vue.js") ∧
    (getTruthy (jsMerge dr.dependencies dr.devDependencies) "next" = false →
      getTruthy (jsMerge dr.dependencies dr.devDependencies) "nuxt" = false →
      getTruthy (jsMerge dr.dependencies dr.devDependencies) "vue" = false →
      getTruthy (jsMerge dr.dependencies dr.devDependencies) "@angular/core" = true →
      (detectTechnology ft dr).framework = "Angular") ∧
    (getTruthy (jsMerge dr.dependencies dr.devDependencies) "next" = false →
      getTruthy (jsMerge dr.dependencies dr.devDependencies) "nuxt" = false →
      getTruthy (jsMerge dr.dependencies dr.devDependencies) "vue" = false →
      getTruthy (jsMerge dr.dependencies dr.devDependencies) "@angular/core" = false →
      getTruthy (jsMerge dr.dependencies dr.devDependencies) "react" = true →
      (detectTechnology ft dr).framework = "React") ∧
    (getTruthy (jsMerge dr.dependencies dr.devDependencies) "next" = false →
      getTruthy (jsMerge dr.dependencies dr.devDependencies) "nuxt" = false →
      getTruthy (jsMerge dr.dependencies dr.devDependencies) "vue" = false →
      getTruthy (jsMerge dr.dependencies dr.devDependencies) "@angular/core" = false →
      getTruthy (jsMerge dr.dependencies dr.devDependencies) "react" = false →
      getTruthy (jsMerge dr.dependencies dr.devDependencies) "express" = true →
      (detectTechnology ft dr).framework = "Express.js") ∧
    (getTruthy (jsMerge dr.dependencies dr.devDependencies) "next" = false →
      getTruthy (jsMerge dr.dependencies dr.devDependencies) "nuxt" = false →
      getTruthy (jsMerge dr.dependencies dr.devDependencies) "vue" = false →
      getTruthy (jsMerge dr.dependencies dr.devDependencies) "@angular/core" = false →
      getTruthy (jsMerge dr.dependencies dr.devDependencies) "react" = false →
      getTruthy (jsMerge dr.dependencies dr.devDependencies) "express" = false →
      (detectTechnology ft dr).framework = "Vanilla JavaScript") := by
  refine ⟨rfl, ?_, ?_, ?_, ?_, ?_, ?_, ?_⟩ <;>
    · intros
      show detectFramework (jsMerge dr.dependencies dr.devDependencies) = _
      simp only [detectFramework, *]
      simp

/-- Witness for C3: with both `next` and `react` present the framework is
`Next.js`, and with no framework dependency at all it is the fallback. -/
theorem detectFramework_precedence_witness :
    (detectTechnology emptyBuckets drNextReact).framework = "Next.js" ∧
    (detectTechnology emptyBuckets emptyDependencyRecord).framework = "Vanilla JavaScript" :=
  ⟨(detectFramework_precedence emptyBuckets drNextReact).2.1 (by decide),
   (detectFramework_precedence emptyBuckets emptyDependencyRecord).2.2.2.2.2.2.2
     (by decide) (by decide) (by decide) (by decide) (by decide) (by decide)⟩

/-- C4: the dependency reader never throws — it is a total function of the
read outcome — and on every non-parsed outcome (missing root, missing or
unreadable manifest, malformed content) it returns the all-empty record,
with the two failure modes indistinguishable to the caller. -/
theorem analyzeDependencies_failure_empty (root : Option FSNode)
    (h : ∀ pkg, manifestReadOf root ≠ ManifestRead.parsed pkg) :
    analyzeDependencies (manifestReadOf root) = emptyDependencyRecord ∧
    analyzeDependencies ManifestRead.missing = analyzeDependencies ManifestRead.invalid := by
  refine ⟨?_, rfl⟩
  cases hr : manifestReadOf root with
  | missing => rfl
  | invalid => rfl
  | parsed pkg => exact absurd hr (h pkg)

/-- Witness for C4 at two concrete roots: an empty directory (manifest
missing) and a directory whose `package.json` does not parse. -/
theorem analyzeDependencies_failure_empty_witness :
    analyzeDependencies (manifestReadOf (some (.dir .nil))) = emptyDependencyRecord ∧
    analyzeDependencies
      (manifestReadOf (some (.dir (.cons "package.json" (.file .malformed) .nil)))) =
      emptyDependencyRecord :=
  ⟨(analyzeDependencies_failure_empty (some (.dir .nil)) (fun _ h => nomatch h)).1,
   (analyzeDependencies_failure_empty
      (some (.dir (.cons "package.json" (.file .malformed) .nil)))
      (fun _ h => nomatch h)).1⟩

/-- C10: the `projectName` field is the basename (final path component) of
the root path, for every filesystem content — in particular it never comes
from the manifest's declared package name, since it is invariant under any
change of filesystem content at the root. -/
theorem analyzeCodebase_projectName (root : Option FSNode) (projectPath : String) :
    ((analyzeCodebase root projectPath).projectName = basenameOf projectPath) ∧
    (∀ root' : Option FSNode,
      (analyzeCodebase root projectPath).projectName =
        (analyzeCodebase root' projectPath).projectName) ∧
    ((analyzeCodebase root "/home/user/my-app").projectName = "my-app") := by
  refine ⟨rfl, fun _ => rfl, ?_⟩
  show basenameOf "/home/user/my-app" = "my-app"
  decide

theorem string_append_empty (s : String) : s ++ "" = s := by
  cases s with
  | mk data =>
    show String.mk (data ++ []) = String.mk data
    rw [List.append_nil]

/-- C8 (code-bug exhibit): the CLI help and the claim list six specialized
task types, but `taskSpecificInstructions` defines guidance blocks for only
four; for the keys `security` and `testing` the specialized prompt is
exactly the base prompt — nothing is appended. -/
theorem generateSpecializedPrompt_security_testing (templates : List (String × String))
    (analysis : AnalysisRecord) (description : String) :
    (generateSpecializedPrompt templates analysis "security" description =
      generatePrompt templates analysis description "default") ∧
    (generateSpecializedPrompt templates analysis "testing" description =
      generatePrompt templates analysis description "default") ∧
    taskSpecificInstructions.lookup "security" = none ∧
    taskSpecificInstructions.lookup "testing" = none := by
  refine ⟨?_, ?_, rfl, rfl⟩ <;>
    · show generatePrompt templates analysis description "default" ++ "" = _
      rw [string_append_empty]

/-- C9 counterexample: the core `analyzeCodebase` does not fail on a
nonexistent root — the directory-read error is swallowed and a complete
analysis record with zero files is returned; and through the entry point a
root that exists but is not a directory likewise yields a successful
result rather than a failure. -/
theorem analyzeCodebase_missing_root_counterexample :
    ((analyzeCodebase none "/missing-project").totalFiles = 0) ∧
    ((analyzeCodebase none "/missing-project").projectName = "missing-project") ∧
    ((analyzeCodebase none "/missing-project").technology.framework = "Vanilla JavaScript") ∧
    ((analyzeAndGeneratePrompt [] (some (.file .malformed)) "/tmp/afile" "" "default").toOption.isSome = true) := by
  exact ⟨rfl, by decide, rfl, rfl⟩

/-- C9 amended: only the `AIWebAgent.analyzeAndGeneratePrompt` entry point
validates existence — a nonexistent root makes it fail with the
path-does-not-exist error before analysis; the core analyzer itself
proceeds and returns an analysis record with `totalFiles = 0` whose name is
still derived from the path. -/
theorem analyzeAndGeneratePrompt_missing_root (templates : List (String × String))
    (projectPath userQuestion templateType : String) :
    (analyzeAndGeneratePrompt templates none projectPath userQuestion templateType =
      Except.error ("Project path does not exist: " ++ projectPath)) ∧
    ((analyzeCodebase none projectPath).totalFiles = 0) ∧
    ((analyzeCodebase none projectPath).projectName = basenameOf projectPath) :=
  ⟨rfl, rfl, rfl⟩

/-- C6 counterexample: rendering a template consisting of the default
template's ternary-shaped boolean placeholder, against a record whose
`hasTypeScript` flag is true, leaves the placeholder verbatim instead of
rendering the literal `Yes`: the renderer's replacement patterns are only
the plain placeholder forms. -/
theorem populateTemplate_ternary_unsubstituted :
    populateTemplate ternaryTsTemplate (analysisFlags true false false false) "" =
      ternaryTsTemplate ∧
    ternaryTsTemplate ≠ "Yes" :=
  ⟨rfl, by decide⟩

/-- C6 amended: for each boolean TechnologyProfile field and each flag
value, a template containing the plain placeholder for that field renders
to the literal `Yes` when the flag is truthy and `No` when it is falsy; the
ternary-shaped placeholder forms appearing in the built-in default template
match no replacement pattern and are left unsubstituted. -/
theorem populateTemplate_plain_bool_flags (ts rc vu an : Bool) :
    (populateTemplate plainTsTemplate (analysisFlags ts rc vu an) "" =
      if ts then "Yes" else "No") ∧
    (populateTemplate plainReactTemplate (analysisFlags ts rc vu an) "" =
      if rc then "Yes" else "No") ∧
    (populateTemplate plainVueTemplate (analysisFlags ts rc vu an) "" =
      if vu then "Yes" else "No") ∧
    (populateTemplate plainAngularTemplate (analysisFlags ts rc vu an) "" =
      if an then "Yes" else "No") := by
  cases ts <;> cases rc <;> cases vu <;> cases an <;> exact ⟨rfl, rfl, rfl, rfl⟩

set_option maxRecDepth 4000 in
/-- C5 (code-bug exhibit): the renderer's dependency-summary pattern
expects `join('', '')`, but both shipped templates write `join(', ')`, so
the shipped dependency-summary lines are never substituted — rendering the
default template's main-dependencies line against a record with two
dependencies leaves it verbatim; the replacement machinery itself (first
ten names comma-joined, `None` fallback) works when a template carries the
pattern text the code expects. -/
theorem populateTemplate_dependency_line :
    (populateTemplate depLineTemplate depsAnalysis "" = depLineTemplate) ∧
    (populateTemplate depCodePatternTemplate depsAnalysis "" = "react, next") ∧
    (populateTemplate depCodePatternTemplate
      (analyzeCodebase (some (.dir .nil)) "project") "" = "None") ∧
    (depLineTemplate ≠ depCodePatternTemplate) :=
  ⟨rfl, rfl, rfl, by decide⟩

set_option maxRecDepth 4000 in
/-- C7 counterexample: the claim fails on an analysis record whose pages
basename is itself placeholder text.  The pages pass inserts the
comma-joined basenames as claimed, but the later config pass rescans the
inserted text — sequential replacement does not protect earlier insertions —
so the rendered document carries `None found` (the empty config role's
value) instead of the pages basenames, although the pages list is
nonempty. -/
theorem populateTemplate_role_rescan_counterexample :
    (populateTemplate "\x7b\x7bimportantFiles.pages\x7d\x7d"
        (rolesAnalysis ⟨[], [], ["\x7b\x7bimportantFiles.config\x7d\x7d"], [], [], []⟩) "" =
      "None found") ∧
    (joinComma (["\x7b\x7bimportantFiles.config\x7d\x7d"].map basenameOf) =
      "\x7b\x7bimportantFiles.config\x7d\x7d") ∧
    (("None found" : String) ≠ "\x7b\x7bimportantFiles.config\x7d\x7d") :=
  ⟨rfl, rfl, by decide⟩

/-- C7 amended: for every importance role and every analysis record whose
role value to insert (comma-joined basenames, or `None found` when empty)
contains no placeholder opener `\x7b\x7b` and no dollar sign, rendering a
template containing the plain `importantFiles` placeholder for that role
substitutes exactly that value; in particular an empty role list renders
the literal `None found`.  The brace restriction is forced by the
counterexample (later passes rescan inserted placeholder text); the dollar
restriction keeps the statement within the domain where literal insertion
and JavaScript's dollar-escape replacement semantics coincide. -/
theorem populateTemplate_role_placeholders (l : List String)
    (h : occursS (roleValue l) "\x7b\x7b" = false)
    (hd : occursS (roleValue l) "$" = false) :
    (populateTemplate "\x7b\x7bimportantFiles.entryPoints\x7d\x7d"
        (rolesAnalysis ⟨l, [], [], [], [], []⟩) "" =
      strFallback (joinComma (l.map basenameOf)) "None found") ∧
    (populateTemplate "\x7b\x7bimportantFiles.components\x7d\x7d"
        (rolesAnalysis ⟨[], l, [], [], [], []⟩) "" =
      strFallback (joinComma (l.map basenameOf)) "None found") ∧
    (populateTemplate "\x7b\x7bimportantFiles.pages\x7d\x7d"
        (rolesAnalysis ⟨[], [], l, [], [], []⟩) "" =
      strFallback (joinComma (l.map basenameOf)) "None found") ∧
    (populateTemplate "\x7b\x7bimportantFiles.api\x7d\x7d"
        (rolesAnalysis ⟨[], [], [], l, [], []⟩) "" =
      strFallback (joinComma (l.map basenameOf)) "None found") ∧
    (populateTemplate "\x7b\x7bimportantFiles.config\x7d\x7d"
        (rolesAnalysis ⟨[], [], [], [], l, []⟩) "" =
      strFallback (joinComma (l.map basenameOf)) "None found") ∧
    (populateTemplate "\x7b\x7bimportantFiles.styles\x7d\x7d"
        (rolesAnalysis ⟨[], [], [], [], [], l⟩) "" =
      strFallback (joinComma (l.map basenameOf)) "None found") := by
  refine ⟨?_, ?_, ?_, ?_, ?_, ?_⟩
  · show (replacements (rolesAnalysis ⟨l, [], [], [], [], []⟩) "").foldl applyRepl
        "\x7b\x7bimportantFiles.entryPoints\x7d\x7d" = _
    rw [← List.take_append_drop 29
        (replacements (rolesAnalysis ⟨l, [], [], [], [], []⟩) ""),
      List.foldl_append]
    have hpre : ∀ pr ∈ (replacements (rolesAnalysis ⟨l, [], [], [], [], []⟩) "").take 29,
        occursS "\x7b\x7bimportantFiles.entryPoints\x7d\x7d" pr.1 = false := by
      intro pr hpr
      fin_cases hpr <;> (dsimp only; decide)
    rw [foldl_applyRepl_not_occurs _ _ hpre]
    show ((replacements (rolesAnalysis ⟨l, [], [], [], [], []⟩) "").drop 30).foldl applyRepl
        (replaceStr "\x7b\x7bimportantFiles.entryPoints\x7d\x7d" "\x7b\x7bimportantFiles.entryPoints\x7d\x7d"
          (roleValue l)) = _
    rw [replaceStr_self_pat _ (roleValue l) (by decide)]
    have hpost : ∀ pr ∈ (replacements (rolesAnalysis ⟨l, [], [], [], [], []⟩) "").drop 30,
        occursS (roleValue l) pr.1 = false := by
      intro pr hpr
      fin_cases hpr <;>
        (dsimp only; exact occursS_extend_false (roleValue l) "\x7b\x7b" _ h (by decide))
    rw [foldl_applyRepl_not_occurs _ _ hpost]
    rfl
  · show (replacements (rolesAnalysis ⟨[], l, [], [], [], []⟩) "").foldl applyRepl
        "\x7b\x7bimportantFiles.components\x7d\x7d" = _
    rw [← List.take_append_drop 30
        (replacements (rolesAnalysis ⟨[], l, [], [], [], []⟩) ""),
      List.foldl_append]
    have hpre : ∀ pr ∈ (replacements (rolesAnalysis ⟨[], l, [], [], [], []⟩) "").take 30,
        occursS "\x7b\x7bimportantFiles.components\x7d\x7d" pr.1 = false := by
      intro pr hpr
      fin_cases hpr <;> (dsimp only; decide)
    rw [foldl_applyRepl_not_occurs _ _ hpre]
    show ((replacements (rolesAnalysis ⟨[], l, [], [], [], []⟩) "").drop 31).foldl applyRepl
        (replaceStr "\x7b\x7bimportantFiles.components\x7d\x7d" "\x7b\x7bimportantFiles.components\x7d\x7d"
          (roleValue l)) = _
    rw [replaceStr_self_pat _ (roleValue l) (by decide)]
    have hpost : ∀ pr ∈ (replacements (rolesAnalysis ⟨[], l, [], [], [], []⟩) "").drop 31,
        occursS (roleValue l) pr.1 = false := by
      intro pr hpr
      fin_cases hpr <;>
        (dsimp only; exact occursS_extend_false (roleValue l) "\x7b\x7b" _ h (by decide))
    rw [foldl_applyRepl_not_occurs _ _ hpost]
    rfl
  · show (replacements (rolesAnalysis ⟨[], [], l, [], [], []⟩) "").foldl applyRepl
        "\x7b\x7bimportantFiles.pages\x7d\x7d" = _
    rw [← List.take_append_drop 31
        (replacements (rolesAnalysis ⟨[], [], l, [], [], []⟩) ""),
      List.foldl_append]
    have hpre : ∀ pr ∈ (replacements (rolesAnalysis ⟨[], [], l, [], [], []⟩) "").take 31,
        occursS "\x7b\x7bimportantFiles.pages\x7d\x7d" pr.1 = false := by
      intro pr hpr
      fin_cases hpr <;> (dsimp only; decide)
    rw [foldl_applyRepl_not_occurs _ _ hpre]
    show ((replacements (rolesAnalysis ⟨[], [], l, [], [], []⟩) "").drop 32).foldl applyRepl
        (replaceStr "\x7b\x7bimportantFiles.pages\x7d\x7d" "\x7b\x7bimportantFiles.pages\x7d\x7d"
          (roleValue l)) = _
    rw [replaceStr_self_pat _ (roleValue l) (by decide)]
    have hpost : ∀ pr ∈ (replacements (rolesAnalysis ⟨[], [], l, [], [], []⟩) "").drop 32,
        occursS (roleValue l) pr.1 = false := by
      intro pr hpr
      fin_cases hpr <;>
        (dsimp only; exact occursS_extend_false (roleValue l) "\x7b\x7b" _ h (by decide))
    rw [foldl_applyRepl_not_occurs _ _ hpost]
    rfl
  · show (replacements (rolesAnalysis ⟨[], [], [], l, [], []⟩) "").foldl applyRepl
        "\x7b\x7bimportantFiles.api\x7d\x7d" = _
    rw [← List.take_append_drop 32
        (replacements (rolesAnalysis ⟨[], [], [], l, [], []⟩) ""),
      List.foldl_append]
    have hpre : ∀ pr ∈ (replacements (rolesAnalysis ⟨[], [], [], l, [], []⟩) "").take 32,
        occursS "\x7b\x7bimportantFiles.api\x7d\x7d" pr.1 = false := by
      intro pr hpr
      fin_cases hpr <;> (dsimp only; decide)
    rw [foldl_applyRepl_not_occurs _ _ hpre]
    show ((replacements (rolesAnalysis ⟨[], [], [], l, [], []⟩) "").drop 33).foldl applyRepl
        (replaceStr "\x7b\x7bimportantFiles.api\x7d\x7d" "\x7b\x7bimportantFiles.api\x7d\x7d"
          (roleValue l)) = _
    rw [replaceStr_self_pat _ (roleValue l) (by decide)]
    have hpost : ∀ pr ∈ (replacements (rolesAnalysis ⟨[], [], [], l, [], []⟩) "").drop 33,
        occursS (roleValue l) pr.1 = false := by
      intro pr hpr
      fin_cases hpr <;>
        (dsimp only; exact occursS_extend_false (roleValue l) "\x7b\x7b" _ h (by decide))
    rw [foldl_applyRepl_not_occurs _ _ hpost]
    rfl
  · show (replacements (rolesAnalysis ⟨[], [], [], [], l, []⟩) "").foldl applyRepl
        "\x7b\x7bimportantFiles.config\x7d\x7d" = _
    rw [← List.take_append_drop 33
        (replacements (rolesAnalysis ⟨[], [], [], [], l, []⟩) ""),
      List.foldl_append]
    have hpre : ∀ pr ∈ (replacements (rolesAnalysis ⟨[], [], [], [], l, []⟩) "").take 33,
        occursS "\x7b\x7bimportantFiles.config\x7d\x7d" pr.1 = false := by
      intro pr hpr
      fin_cases hpr <;> (dsimp only; decide)
    rw [foldl_applyRepl_not_occurs _ _ hpre]
    show ((replacements (rolesAnalysis ⟨[], [], [], [], l, []⟩) "").drop 34).foldl applyRepl
        (replaceStr "\x7b\x7bimportantFiles.config\x7d\x7d" "\x7b\x7bimportantFiles.config\x7d\x7d"
          (roleValue l)) = _
    rw [replaceStr_self_pat _ (roleValue l) (by decide)]
    have hpost : ∀ pr ∈ (replacements (rolesAnalysis ⟨[], [], [], [], l, []⟩) "").drop 34,
        occursS (roleValue l) pr.1 = false := by
      intro pr hpr
      fin_cases hpr <;>
        (dsimp only; exact occursS_extend_false (roleValue l) "\x7b\x7b" _ h (by decide))
    rw [foldl_applyRepl_not_occurs _ _ hpost]
    rfl
  · show (replacements (rolesAnalysis ⟨[], [], [], [], [], l⟩) "").foldl applyRepl
        "\x7b\x7bimportantFiles.styles\x7d\x7d" = _
    rw [← List.take_append_drop 34
        (replacements (rolesAnalysis ⟨[], [], [], [], [], l⟩) ""),
      List.foldl_append]
    have hpre : ∀ pr ∈ (replacements (rolesAnalysis ⟨[], [], [], [], [], l⟩) "").take 34,
        occursS "\x7b\x7bimportantFiles.styles\x7d\x7d" pr.1 = false := by
      intro pr hpr
      fin_cases hpr <;> (dsimp only; decide)
    rw [foldl_applyRepl_not_occurs _ _ hpre]
    show ((replacements (rolesAnalysis ⟨[], [], [], [], [], l⟩) "").drop 35).foldl applyRepl
        (replaceStr "\x7b\x7bimportantFiles.styles\x7d\x7d" "\x7b\x7bimportantFiles.styles\x7d\x7d"
          (roleValue l)) = _
    rw [replaceStr_self_pat _ (roleValue l) (by decide)]
    have hpost : ∀ pr ∈ (replacements (rolesAnalysis ⟨[], [], [], [], [], l⟩) "").drop 35,
        occursS (roleValue l) pr.1 = false := by
      intro pr hpr
      fin_cases hpr <;>
        (dsimp only; exact occursS_extend_false (roleValue l) "\x7b\x7b" _ h (by decide))
    rw [foldl_applyRepl_not_occurs _ _ hpost]
    rfl

/-- Witness for C7: an empty pages list renders the literal `None found`
at the pages placeholder, and a two-file pages list renders the two
comma-joined basenames. -/
theorem populateTemplate_role_placeholders_witness :
    (populateTemplate "\x7b\x7bimportantFiles.pages\x7d\x7d"
        (rolesAnalysis ⟨[], [], [], [], [], []⟩) "" = "None found") ∧
    (populateTemplate "\x7b\x7bimportantFiles.pages\x7d\x7d"
        (rolesAnalysis ⟨[], [], ["src/pages/home.js", "src/pages/about.js"], [], [], []⟩) "" =
      "home.js, about.js") :=
  ⟨(populateTemplate_role_placeholders [] (by decide) (by decide)).2.2.1,
   (populateTemplate_role_placeholders ["src/pages/home.js", "src/pages/about.js"]
      (by decide) (by decide)).2.2.1⟩


/-- Each later rendered segment keeps its leading newline. -/
theorem mapped_defaultSegs_nl_led (A : AnalysisRecord) (q : String) :
    ∀ s ∈ (defaultTemplateSegs.map
        (fun s => (replacements A q).foldl applyRepl s)).drop 1,
      ∃ bd, s.data = '\n' :: bd := by
  intro s hs
  rw [← List.map_drop] at hs
  obtain ⟨x, hx, rfl⟩ := List.mem_map.1 hs
  exact foldl_applyRepl_nl_head _ (replacements_patOk A q) x (defaultSegs_nl_led x hx)

/-- The empty-project render decomposes segment by segment. -/
theorem emptyProjectRender_eq :
    emptyProjectRender =
      concatR (defaultTemplateSegs.map
        (fun s => (replacements emptyProjectAnalysis "").foldl applyRepl s)) := by
  show (replacements emptyProjectAnalysis "").foldl applyRepl
      (concatR defaultTemplateSegs) = _
  exact foldl_applyRepl_concatR _ (replacements_patOk emptyProjectAnalysis "")
    defaultTemplateSegs defaultSegs_nl_led

set_option maxRecDepth 6000 in
set_option maxHeartbeats 8000000 in
/-- Evaluation of the 63 per-segment renders of the empty project. -/
theorem emptyProjectSegRenders_eval :
    defaultTemplateSegs.map
        (fun s => (replacements emptyProjectAnalysis "").foldl applyRepl s) =
      emptyProjectSegRenders := rfl

/-- Each rendered segment after the first is led by its newline. -/
theorem emptyProjectSegRenders_nl_led :
    ∀ s ∈ emptyProjectSegRenders.drop 1, ∃ bd, s.data = '\n' :: bd := by
  intro s hs
  fin_cases hs <;> exact ⟨_, rfl⟩

set_option maxRecDepth 6000 in
/-- C1 counterexample: on the empty project the rendered default template
does not contain `Unknown` at the framework field — the framework line
carries the fallback label `Vanilla JavaScript` — and the template's
importance-role placeholders are not replaced by `None found`: their
`.join(', ') || 'None found'` expression text matches none of the
renderer's patterns and stays verbatim in the output. -/
theorem emptyProject_render_counterexample :
    (occursS emptyProjectRender "**Main Framework**: Unknown" = false) ∧
    (occursS emptyProjectRender "**Main Framework**: Vanilla JavaScript" = true) ∧
    (occursS emptyProjectRender
      "\x7b\x7bimportantFiles.pages.slice(0, 10).join(\x27, \x27) || \x27None found\x27\x7d\x7d" = true) := by
  refine ⟨?_, ?_, ?_⟩ <;>
    · rw [emptyProjectRender_eq, emptyProjectSegRenders_eval,
        occursS_concatR _ (by decide) (by decide) _ emptyProjectSegRenders_nl_led]
      rfl

set_option maxRecDepth 6000 in
/-- C1 amended: the empty project yields `totalFiles = 0`, every category
bucket empty, every importance role empty, and framework resolved to the
fallback label `Vanilla JavaScript`; rendering the built-in default
template yields the fallback label (not `Unknown`) at the framework field
and `Unknown` at the language field, and leaves every importance-role
placeholder of that template unsubstituted, because the renderer only
replaces plain `importantFiles` placeholders while the default template
writes slice/join expressions. -/
theorem emptyProject_analysis_amended :
    (emptyProjectAnalysis.totalFiles = 0) ∧
    (emptyProjectAnalysis.fileTypes = emptyBuckets) ∧
    (emptyProjectAnalysis.importantFiles = ⟨[], [], [], [], [], []⟩) ∧
    (emptyProjectAnalysis.technology.framework = "Vanilla JavaScript") ∧
    (emptyProjectAnalysis.technology.language = "Unknown") ∧
    (occursS emptyProjectRender "- **Main Framework**: Vanilla JavaScript" = true) ∧
    (occursS emptyProjectRender "- **Language**: Unknown" = true) ∧
    (occursS emptyProjectRender
      "**Entry Points**: \x7b\x7bimportantFiles.entryPoints.join(\x27, \x27) || \x27None found\x27\x7d\x7d" = true) ∧
    (occursS emptyProjectRender "None found\x27\x7d\x7d" = true) := by
  refine ⟨rfl, rfl, rfl, rfl, rfl, ?_, ?_, ?_, ?_⟩ <;>
    · rw [emptyProjectRender_eq, emptyProjectSegRenders_eval,
        occursS_concatR _ (by decide) (by decide) _ emptyProjectSegRenders_nl_led]
      rfl


example : findAllFiles (some (.dir .nil)) "/p" = [] := rfl
example : basenameOf "/home/user/my-app" = "my-app" := by decide
example : extnameOf ".env" = "" := by decide
example : extnameOf "a/b/File.test.JS" = ".JS" := by decide
example : categoryOf "src/app.js" = .javascript := by decide
example : categoryOf "src/app.test.js" = .tests := by decide
example : categoryOf "README.md" = .documentation := by decide
example : categoryOf "package.json" = .config := by decide
example : categoryOf "logo.PNG" = .images := by decide
example : categoryOf "weird.bin" = .other := by decide

end AiWebAgent
